import Mathlib

/-!
Verification of the KnightHacks bulk email sender (`email_hackers/main.py`).

The program is a linear batch job: read two recipient-list files, then for
each address in each list perform one SMTP send, logging every attempt.
The embedding below models:

* the log sink (`write_log` dispatching to the `logging` module, which is
  configured once at startup with `level=logging.INFO` and the format
  `%(asctime)s - %(levelname)s - %(message)s`);
* the list loader (`read_email_list`);
* the mail transport (`send_email`), with the outcome of the SMTP session
  (the body of its `try` block) supplied as an explicit parameter;
* the batch dispatcher (`main`), with the file system and the per-attempt
  transport outcomes supplied as explicit parameters.
-/

namespace EmailHackers

/-- Log levels of the Python `logging` module used by the program. -/
inductive LogLevel
  | DEBUG | INFO | WARNING | ERROR | CRITICAL
deriving DecidableEq, Repr

/-- Numeric severity of each level, as in the Python `logging` module. -/
def levelno : LogLevel → Nat
  | .DEBUG => 10
  | .INFO => 20
  | .WARNING => 30
  | .ERROR => 40
  | .CRITICAL => 50

/-- Name of each level, as interpolated for `%(levelname)s`. -/
def levelname : LogLevel → String
  | .DEBUG => "DEBUG"
  | .INFO => "INFO"
  | .WARNING => "WARNING"
  | .ERROR => "ERROR"
  | .CRITICAL => "CRITICAL"

/-- The root logger threshold set by
`logging.basicConfig(filename='email_sender.log', level=logging.INFO, ...)`:
records whose level is below INFO (numeric 20) are discarded. -/
def root_level : Nat := levelno .INFO

/-- One record of the log file: its level and its message text. -/
structure LogRecord where
  level : LogLevel
  message : String
deriving DecidableEq, Repr

/-- The line written for one record, per the configured format
`%(asctime)s - %(levelname)s - %(message)s`. -/
def format_line (asctime : String) (r : LogRecord) : String :=
  asctime ++ " - " ++ levelname r.level ++ " - " ++ r.message

/-- A call `logging.info` / `logging.debug` / ... : the record is appended to
the log file iff its level passes the configured root level. -/
def logging_emit (lvl : LogLevel) (msg : String) : List LogRecord :=
  if root_level ≤ levelno lvl then [⟨lvl, msg⟩] else []

/-- The rule-line separator written for the LINE tag: `'=' * 80`. -/
def rule_line : String := String.mk (List.replicate 80 '=')

/-- `write_log(type, message)`: dispatches on the level tag to the
corresponding `logging` call; an unrecognized tag falls through every branch
and writes nothing. Returns the list of records appended to the log file. -/
def write_log (type : String) (message : String) : List LogRecord :=
  if type = "INFO" then logging_emit .INFO message
  else if type = "DEBUG" then logging_emit .DEBUG message
  else if type = "WARNING" then logging_emit .WARNING message
  else if type = "ERROR" then logging_emit .ERROR message
  else if type = "CRITICAL" then logging_emit .CRITICAL message
  else if type = "LINE" then logging_emit .INFO rule_line
  else []

/-- `format_exception_info(Exception, inst)`: builds the multi-line
diagnostic buffer (exception type, args, details, and a traceback dump that
depends on the runtime stack, carried here as the description `err`) and
writes it as one ERROR record via `write_log`. -/
def format_exception_info (err : String) : List LogRecord :=
  write_log "ERROR"
    ("ERROR\n" ++ "Type: " ++ err ++ "\n" ++ "Args: " ++ err ++ "\n" ++
      "Details: " ++ err)

/-- Characters removed by Python `str.strip()` with no argument. -/
def isPySpace (c : Char) : Bool :=
  c = ' ' || c = '\t' || c = '\n' || c = '\r' || c = '\x0b' || c = '\x0c'

/-- Python `str.strip()` on a character list: drop leading and trailing
whitespace. -/
def pyStripList (l : List Char) : List Char :=
  ((l.dropWhile isPySpace).reverse.dropWhile isPySpace).reverse

/-- Python `line.strip()`. -/
def pyStrip (s : String) : String :=
  String.mk (pyStripList s.toList)

/-- The comprehension `[line.strip() for line in file if line.strip()]`:
keep each line whose stripped form is non-empty (truthy), yielding the
stripped form. -/
def read_email_list_lines : List String → List String
  | [] => []
  | line :: rest =>
      if pyStrip line ≠ "" then pyStrip line :: read_email_list_lines rest
      else read_email_list_lines rest

/-- `read_email_list(file_path)`: the file system is modelled as a map from
paths to either the file's lines or the raised exception's description.
On success, returns the non-empty stripped lines and writes nothing; on
failure, writes the formatted exception and the error message, and returns
`none` (Python `None`). The second component is the list of appended log
records. -/
def read_email_list (fs : String → Except String (List String))
    (file_path : String) : Option (List String) × List LogRecord :=
  match fs file_path with
  | .ok lines => (some (read_email_list_lines lines), [])
  | .error e =>
      (none,
        format_exception_info e ++
          write_log "ERROR"
            ("Error reading email list from " ++ file_path ++ ": " ++ e))

/-- Outcome of the SMTP session of one `send_email` call (the body of its
`try` block: connect, STARTTLS, login, send). `fail err` models an exception
with description `err` raised anywhere inside the block; all such exceptions
derive from `Exception` and are caught by the handler. -/
inductive SmtpOutcome
  | ok
  | fail (err : String)
deriving DecidableEq, Repr

/-- Whether the SMTP session succeeded. -/
def SmtpOutcome.isOk : SmtpOutcome → Bool
  | .ok => true
  | .fail _ => false

/-- `send_email(sender_email, sender_password, recipient_email, subject,
body)`: on success, logs at INFO and returns `True`; on any exception, logs
the formatted exception and the error message (both at ERROR level) and
returns `False`. The second component is the list of appended log records. -/
def send_email (outcome : SmtpOutcome)
    (sender_email sender_password recipient_email subject body : String) :
    Bool × List LogRecord :=
  match outcome with
  | .ok =>
      (true, write_log "INFO" ("Email sent successfully to " ++ recipient_email))
  | .fail e =>
      (false,
        format_exception_info e ++
          write_log "ERROR"
            ("Error sending email to " ++ recipient_email ++ ": " ++ e))

/-- One invocation of `send_email`, recorded with its argument values. -/
structure SendCall where
  sender : String
  recipient : String
  subject : String
  body : String
deriving DecidableEq, Repr

/-- One iteration of a dispatcher loop in `main`: call `send_email` for one
address, then log `Sent <kind> email to ...` at INFO on success or
`Failed to send <kind> email to ...` at WARNING on failure. Returns the
recorded invocation and the records appended during this iteration. -/
def attempt_step (outcome : SmtpOutcome)
    (sender password email subject body kindWord : String) :
    SendCall × List LogRecord :=
  let r := send_email outcome sender password email subject body
  (⟨sender, email, subject, body⟩,
    r.2 ++
      (if r.1 then write_log "INFO" ("Sent " ++ kindWord ++ " email to " ++ email)
       else write_log "WARNING"
          ("Failed to send " ++ kindWord ++ " email to " ++ email)))

/-- One `for email in ...` loop of `main`, over the remaining addresses.
`k` is the global index of the next send attempt; `transport k` is the SMTP
outcome of attempt number `k`. Returns the invocations made and the records
appended, in order. -/
def dispatch_loop (transport : Nat → SmtpOutcome)
    (sender password subject body kindWord : String) :
    List String → Nat → List SendCall × List LogRecord
  | [], _ => ([], [])
  | email :: rest, k =>
      let step := attempt_step (transport k) sender password email subject body kindWord
      let tail := dispatch_loop transport sender password subject body kindWord rest (k + 1)
      (step.1 :: tail.1, step.2 ++ tail.2)

/-- Subject hardcoded in `main` for the confirmed list. -/
def confirmed_subject : String := "See you this Friday at KnightHacks!"

/-- Subject hardcoded in `main` for the accepted list. -/
def accepted_subject : String := "Your Knight Hacks Status: Withdrawn"

/-- The dispatcher states named by the specification. -/
inductive DispatchState
  | INIT | LISTS_LOADED | SENDING_CONFIRMED | SENDING_ACCEPTED | DONE | FATAL
deriving DecidableEq, Repr

/-- Observable result of one run of the program. -/
structure RunResult where
  exitCode : Nat
  log : List LogRecord
  calls : List SendCall
  states : List DispatchState
deriving Repr

/-- `main` followed by the `__main__` guard: read both lists; if either read
returned `None`, log the abort message at ERROR and exit with status 1
(`sys.exit(1)` raises `SystemExit`, which `except Exception` does not catch,
so status 1 reaches the OS). Otherwise loop over the confirmed list and then
over the accepted list, log completion at INFO, and exit with status 0.
The two HTML template bodies are static content blobs hardcoded in `main`;
they are passed in here as opaque strings (`confirmed_body`,
`accepted_body`). The `states` field records the dispatcher phases the run
traverses, in order. -/
def main_run (fs : String → Except String (List String))
    (transport : Nat → SmtpOutcome)
    (email password confirmed_list accepted_list
      confirmed_body accepted_body : String) : RunResult :=
  match (read_email_list fs confirmed_list).1, (read_email_list fs accepted_list).1 with
  | some ce, some ae =>
      let c := dispatch_loop transport email password confirmed_subject
        confirmed_body "confirmation" ce 0
      let a := dispatch_loop transport email password accepted_subject
        accepted_body "acceptance" ae ce.length
      { exitCode := 0
        log := (read_email_list fs confirmed_list).2 ++
          (read_email_list fs accepted_list).2 ++ c.2 ++ a.2 ++
          write_log "INFO" "Email sending process completed"
        calls := c.1 ++ a.1
        states := [.INIT, .LISTS_LOADED, .SENDING_CONFIRMED, .SENDING_ACCEPTED, .DONE] }
  | _, _ =>
      { exitCode := 1
        log := (read_email_list fs confirmed_list).2 ++
          (read_email_list fs accepted_list).2 ++
          write_log "ERROR" "Failed to read email lists. Exiting."
        calls := []
        states := [.INIT, .FATAL] }

/-- Number of records at a given level in a log. -/
def countLevel (lvl : LogLevel) (log : List LogRecord) : Nat :=
  (log.filter (fun r => decide (r.level = lvl))).length

end EmailHackers

namespace EmailHackers

/-! Concrete file systems and transports used to instantiate the theorems. -/

/-- A file system with one valid confirmed list and one valid accepted list. -/
def fs_two (p : String) : Except String (List String) :=
  if p = "confirmed.txt" then .ok ["a@x.com"]
  else if p = "accepted.txt" then .ok ["b@x.com"]
  else .error "No such file or directory"

/-- A file system where the accepted-list path does not exist. -/
def fs_missing_accepted (p : String) : Except String (List String) :=
  if p = "confirmed.txt" then .ok ["a@x.com"]
  else .error "No such file or directory"

/-- A file system whose confirmed list has a blank middle line. -/
def fs_blank_middle (p : String) : Except String (List String) :=
  if p = "confirmed.txt" then .ok ["a@x.com", "", "b@x.com"]
  else .error "No such file or directory"

/-- A transport whose SMTP session always succeeds. -/
def always_ok : Nat → SmtpOutcome := fun _ => .ok

/-- A transport whose SMTP session always fails. -/
def always_fail : Nat → SmtpOutcome := fun _ => .fail "boom"

/-! Helper lemmas about the loader. -/

/-- The loader comprehension equals: strip every line, keep the non-empty
results. -/
theorem read_email_list_lines_eq (lines : List String) :
    read_email_list_lines lines
      = (lines.map pyStrip).filter (fun s => decide (s ≠ "")) := by
  induction lines with
  | nil => rfl
  | cons a l ih =>
      by_cases h : pyStrip a = "" <;>
        simp [read_email_list_lines, h, ih, List.filter_cons]

/-- On a list of non-blank, already-stripped lines the loader is the
identity. -/
theorem read_email_list_lines_id (lines : List String)
    (h : ∀ l ∈ lines, pyStrip l = l ∧ l ≠ "") :
    read_email_list_lines lines = lines := by
  induction lines with
  | nil => rfl
  | cons a l ih =>
      have ha := h a (by simp)
      rw [read_email_list_lines, ha.1, if_pos ha.2,
        ih (fun x hx => h x (by simp [hx]))]

end EmailHackers

namespace EmailHackers

/-! Helper lemmas about the log sink. -/

/-- The INFO tag appends one INFO record. -/
theorem write_log_INFO (m : String) : write_log "INFO" m = [⟨.INFO, m⟩] := rfl

/-- The WARNING tag appends one WARNING record. -/
theorem write_log_WARNING (m : String) :
    write_log "WARNING" m = [⟨.WARNING, m⟩] := rfl

/-- The ERROR tag appends one ERROR record. -/
theorem write_log_ERROR (m : String) : write_log "ERROR" m = [⟨.ERROR, m⟩] := rfl

/-- The CRITICAL tag appends one CRITICAL record. -/
theorem write_log_CRITICAL (m : String) :
    write_log "CRITICAL" m = [⟨.CRITICAL, m⟩] := rfl

/-- The DEBUG tag appends nothing: DEBUG (10) is below the root level
configured by `basicConfig(level=logging.INFO)` (20). -/
theorem write_log_DEBUG (m : String) : write_log "DEBUG" m = [] := rfl

/-- The LINE tag appends the rule line at INFO level. -/
theorem write_log_LINE (m : String) :
    write_log "LINE" m = [⟨.INFO, rule_line⟩] := rfl

/-- `countLevel` distributes over append. -/
theorem countLevel_append (lvl : LogLevel) (l1 l2 : List LogRecord) :
    countLevel lvl (l1 ++ l2) = countLevel lvl l1 + countLevel lvl l2 := by
  simp [countLevel, List.filter_append]

/-! Helper lemmas about one send attempt. -/

/-- C5 (amended): every send attempt produces exactly one dispatcher-level
log entry — INFO on success, WARNING on failure — but it is not the only
entry for the attempt: `send_email` itself also logs, so a successful
attempt appends two INFO records (one from `send_email`, one from the
dispatcher) and a failed attempt appends two ERROR records (the formatted
exception and the error message, both from `send_email`) followed by the
dispatcher's WARNING. -/
theorem send_attempt_log_levels (o : SmtpOutcome)
    (sender password email subject body kindWord : String) :
    ((attempt_step o sender password email subject body kindWord).2).map
        (fun r => r.level)
      = if o.isOk then [.INFO, .INFO] else [.ERROR, .ERROR, .WARNING] := by
  cases o <;>
    simp [attempt_step, send_email, format_exception_info, write_log_INFO,
      write_log_WARNING, write_log_ERROR, SmtpOutcome.isOk]

/-- WARNING records appended by one attempt: none on success, one on
failure. -/
theorem attempt_step_count_warning (o : SmtpOutcome)
    (sender password email subject body kindWord : String) :
    countLevel .WARNING (attempt_step o sender password email subject body kindWord).2
      = if o.isOk then 0 else 1 := by
  cases o <;> rfl

/-- No attempt ever appends a CRITICAL record. -/
theorem attempt_step_count_critical (o : SmtpOutcome)
    (sender password email subject body kindWord : String) :
    countLevel .CRITICAL (attempt_step o sender password email subject body kindWord).2
      = 0 := by
  cases o <;> rfl

/-! Helper lemmas about one dispatcher loop. -/

/-- The invocations made by a loop are exactly one per address, in list
order, each with the loop's fixed subject and body — independent of the
transport outcomes. -/
theorem dispatch_loop_calls (transport : Nat → SmtpOutcome)
    (sender password subject body kindWord : String)
    (emails : List String) (k : Nat) :
    (dispatch_loop transport sender password subject body kindWord emails k).1
      = emails.map (fun r => ⟨sender, r, subject, body⟩) := by
  induction emails generalizing k with
  | nil => rfl
  | cons a l ih => simp [dispatch_loop, attempt_step, ih]

/-- WARNING records appended by a loop: one per failed attempt. -/
theorem dispatch_loop_count_warning (transport : Nat → SmtpOutcome)
    (sender password subject body kindWord : String)
    (emails : List String) (k : Nat) :
    countLevel .WARNING
        (dispatch_loop transport sender password subject body kindWord emails k).2
      = ((List.range' k emails.length).filter
          (fun j => !(transport j).isOk)).length := by
  induction emails generalizing k with
  | nil => rfl
  | cons a l ih =>
      rw [dispatch_loop]
      show countLevel .WARNING (_ ++ _) = _
      rw [countLevel_append, attempt_step_count_warning, ih]
      rw [List.length_cons, List.range'_succ, List.filter_cons]
      cases h : (transport k).isOk <;> simp [h, Nat.add_comm]

/-- A loop never appends a CRITICAL record. -/
theorem dispatch_loop_count_critical (transport : Nat → SmtpOutcome)
    (sender password subject body kindWord : String)
    (emails : List String) (k : Nat) :
    countLevel .CRITICAL
        (dispatch_loop transport sender password subject body kindWord emails k).2
      = 0 := by
  induction emails generalizing k with
  | nil => rfl
  | cons a l ih =>
      rw [dispatch_loop]
      show countLevel .CRITICAL (_ ++ _) = _
      rw [countLevel_append, attempt_step_count_critical, ih]

/-! Helper lemmas about reading and about the two branches of `main`. -/

/-- A successful read appends no log record. -/
theorem read_email_list_some_log (fs : String → Except String (List String))
    (p : String) (l : List String) (h : (read_email_list fs p).1 = some l) :
    (read_email_list fs p).2 = [] := by
  unfold read_email_list at h ⊢
  cases hfs : fs p with
  | ok lines => rfl
  | error e => rw [hfs] at h; simp at h

/-- Reduction of `main_run` when either list fails to load: the abort
branch. -/
theorem main_run_none (fs : String → Except String (List String))
    (transport : Nat → SmtpOutcome)
    (email password cpath apath cb ab : String)
    (h : (read_email_list fs cpath).1 = none ∨
      (read_email_list fs apath).1 = none) :
    main_run fs transport email password cpath apath cb ab
      = { exitCode := 1
          log := (read_email_list fs cpath).2 ++ (read_email_list fs apath).2 ++
            write_log "ERROR" "Failed to read email lists. Exiting."
          calls := []
          states := [.INIT, .FATAL] } := by
  unfold main_run
  rcases h with h | h
  · rw [h]
  · cases hc : (read_email_list fs cpath).1 <;> rw [h]

/-- Exit code of `main_run` when both lists load: status 0. -/
theorem main_run_some_exit (fs : String → Except String (List String))
    (transport : Nat → SmtpOutcome)
    (email password cpath apath cb ab : String) (ce ae : List String)
    (hc : (read_email_list fs cpath).1 = some ce)
    (ha : (read_email_list fs apath).1 = some ae) :
    (main_run fs transport email password cpath apath cb ab).exitCode = 0 := by
  unfold main_run
  rw [hc, ha]

/-- Log of `main_run` when both lists load: both read logs, both loop logs,
then the completion message. -/
theorem main_run_some_log (fs : String → Except String (List String))
    (transport : Nat → SmtpOutcome)
    (email password cpath apath cb ab : String) (ce ae : List String)
    (hc : (read_email_list fs cpath).1 = some ce)
    (ha : (read_email_list fs apath).1 = some ae) :
    (main_run fs transport email password cpath apath cb ab).log
      = (read_email_list fs cpath).2 ++ (read_email_list fs apath).2 ++
        (dispatch_loop transport email password confirmed_subject cb
          "confirmation" ce 0).2 ++
        (dispatch_loop transport email password accepted_subject ab
          "acceptance" ae ce.length).2 ++
        write_log "INFO" "Email sending process completed" := by
  unfold main_run
  rw [hc, ha]

/-- Calls of `main_run` when both lists load: the confirmed loop's calls
followed by the accepted loop's calls. -/
theorem main_run_some_calls (fs : String → Except String (List String))
    (transport : Nat → SmtpOutcome)
    (email password cpath apath cb ab : String) (ce ae : List String)
    (hc : (read_email_list fs cpath).1 = some ce)
    (ha : (read_email_list fs apath).1 = some ae) :
    (main_run fs transport email password cpath apath cb ab).calls
      = (dispatch_loop transport email password confirmed_subject cb
          "confirmation" ce 0).1 ++
        (dispatch_loop transport email password accepted_subject ab
          "acceptance" ae ce.length).1 := by
  unfold main_run
  rw [hc, ha]

/-- States of `main_run` when both lists load: the linear order through
DONE. -/
theorem main_run_some_states (fs : String → Except String (List String))
    (transport : Nat → SmtpOutcome)
    (email password cpath apath cb ab : String) (ce ae : List String)
    (hc : (read_email_list fs cpath).1 = some ce)
    (ha : (read_email_list fs apath).1 = some ae) :
    (main_run fs transport email password cpath apath cb ab).states
      = [.INIT, .LISTS_LOADED, .SENDING_CONFIRMED, .SENDING_ACCEPTED, .DONE] := by
  unfold main_run
  rw [hc, ha]

end EmailHackers

namespace EmailHackers

/-- C1: for every input file that can be read, the List Loader
(`read_email_list`) returns exactly the lines of the file that are
non-empty after trimming whitespace, in their original order, with blank
lines removed and no transformation beyond the trim; in particular, loading
a file written from a sequence of non-blank addresses (no surrounding
whitespace) returns that same sequence. -/
theorem loader_returns_trimmed_nonblank_lines
    (fs : String → Except String (List String)) (file_path : String)
    (lines : List String) (h : fs file_path = .ok lines) :
    (read_email_list fs file_path).1
        = some ((lines.map pyStrip).filter (fun s => decide (s ≠ "")))
    ∧ ((∀ l ∈ lines, pyStrip l = l ∧ l ≠ "") →
        (read_email_list fs file_path).1 = some lines) := by
  have hr : (read_email_list fs file_path).1
      = some (read_email_list_lines lines) := by
    unfold read_email_list
    rw [h]
  exact ⟨by rw [hr, read_email_list_lines_eq],
    fun hl => by rw [hr, read_email_list_lines_id lines hl]⟩

/-- Witness for C1 at the end-to-end scenario: a confirmed list with a
blank middle line loads as exactly the two addresses. -/
theorem loader_returns_trimmed_nonblank_lines_witness :
    (read_email_list fs_blank_middle "confirmed.txt").1
      = some ["a@x.com", "b@x.com"] :=
  ((loader_returns_trimmed_nonblank_lines fs_blank_middle "confirmed.txt"
      ["a@x.com", "", "b@x.com"] rfl).1).trans (by decide)

/-- C2: if loading either list file fails (the loader returns `None` for
the confirmed or the accepted list), the Dispatcher performs zero
`send_email` invocations and the process exits with status 1. -/
theorem abort_on_list_load_failure (fs : String → Except String (List String))
    (transport : Nat → SmtpOutcome) (email password cpath apath cb ab : String)
    (h : (read_email_list fs cpath).1 = none ∨
      (read_email_list fs apath).1 = none) :
    (main_run fs transport email password cpath apath cb ab).calls = []
    ∧ (main_run fs transport email password cpath apath cb ab).exitCode = 1 := by
  rw [main_run_none fs transport email password cpath apath cb ab h]
  exact ⟨rfl, rfl⟩

/-- Witness for C2: with the accepted-list file missing, no sends occur and
the exit code is 1. -/
theorem abort_on_list_load_failure_witness :
    (main_run fs_missing_accepted always_ok "s@x.com" "pw" "confirmed.txt"
        "accepted.txt" "CB" "AB").calls = []
    ∧ (main_run fs_missing_accepted always_ok "s@x.com" "pw" "confirmed.txt"
        "accepted.txt" "CB" "AB").exitCode = 1 :=
  abort_on_list_load_failure fs_missing_accepted always_ok "s@x.com" "pw"
    "confirmed.txt" "accepted.txt" "CB" "AB" (Or.inr (by decide))

/-- C3: `send_email` is a total function of the SMTP session outcome — it
never raises to its caller. It returns `True` exactly when the message was
transmitted; every failure of the session (network error, auth rejection,
relay rejection, encoding error — all `Exception` subclasses caught by its
handler) is converted to the return value `False`; and every call, success
or failure, is logged (appends at least one record). -/
theorem send_email_flag_never_raises (o : SmtpOutcome)
    (sender password recipient subject body : String) :
    ((send_email o sender password recipient subject body).1 = o.isOk)
    ∧ (send_email o sender password recipient subject body).2 ≠ [] := by
  cases o <;>
    simp [send_email, SmtpOutcome.isOk, write_log_INFO, write_log_ERROR,
      format_exception_info]

/-- C4: for every successfully loaded pair of lists, the Dispatcher invokes
`send_email` exactly once per address, in list order — the confirmed list
with the confirmed subject and body, then the accepted list with the
accepted subject and body — and the sequence of invocations does not depend
on the transport outcomes: no failed send prevents later attempts. -/
theorem dispatcher_attempts_every_address
    (fs : String → Except String (List String)) (transport : Nat → SmtpOutcome)
    (email password cpath apath cb ab : String) (ce ae : List String)
    (hc : (read_email_list fs cpath).1 = some ce)
    (ha : (read_email_list fs apath).1 = some ae) :
    (main_run fs transport email password cpath apath cb ab).calls
      = ce.map (fun r => ⟨email, r, confirmed_subject, cb⟩)
        ++ ae.map (fun r => ⟨email, r, accepted_subject, ab⟩) := by
  rw [main_run_some_calls fs transport email password cpath apath cb ab ce ae hc ha,
    dispatch_loop_calls, dispatch_loop_calls]

/-- Witness for C4: one address per list, transport always failing — both
invocations still happen, in order, with the fixed templates. -/
theorem dispatcher_attempts_every_address_witness :
    (main_run fs_two always_fail "s@x.com" "pw" "confirmed.txt" "accepted.txt"
        "CB" "AB").calls
      = (["a@x.com"] : List String).map
          (fun r => ⟨"s@x.com", r, confirmed_subject, "CB"⟩)
        ++ (["b@x.com"] : List String).map
          (fun r => ⟨"s@x.com", r, accepted_subject, "AB"⟩) :=
  dispatcher_attempts_every_address fs_two always_fail "s@x.com" "pw"
    "confirmed.txt" "accepted.txt" "CB" "AB" ["a@x.com"] ["b@x.com"]
    (by decide) (by decide)

/-- C5 counterexample: a successful send attempt appends two log records
(`send_email` logs INFO and the dispatcher logs INFO again), not exactly
one. -/
theorem send_attempt_one_entry_refuted :
    ((attempt_step .ok "s@x.com" "pw" "r@x.com" "S" "B" "confirmation").2).length
        = 2
    ∧ ¬ ((attempt_step .ok "s@x.com" "pw" "r@x.com" "S" "B"
        "confirmation").2).length = 1 := by
  decide

/-- C6 counterexample: a valid confirmed list and a missing accepted list
produce three ERROR records (two from the loader, one from the
dispatcher's abort message), not a single one. -/
theorem single_error_on_load_failure_refuted :
    countLevel .ERROR (main_run fs_missing_accepted always_ok "s@x.com" "pw"
        "confirmed.txt" "accepted.txt" "CB" "AB").log = 3
    ∧ ¬ countLevel .ERROR (main_run fs_missing_accepted always_ok "s@x.com"
        "pw" "confirmed.txt" "accepted.txt" "CB" "AB").log = 1 := by
  decide

/-- C6 (amended): when the accepted-list path does not exist and the
confirmed-list file is valid, the Dispatcher aborts before any send, the
process exits with code 1, and exactly three ERROR-level records are
written about the failed load: the loader's formatted exception, the
loader's read-error message, and the dispatcher's abort message. -/
theorem load_failure_aborts_with_three_errors
    (fs : String → Except String (List String)) (transport : Nat → SmtpOutcome)
    (email password cpath apath cb ab : String) (lines : List String)
    (e : String) (hc : fs cpath = .ok lines) (ha : fs apath = .error e) :
    (main_run fs transport email password cpath apath cb ab).calls = []
    ∧ (main_run fs transport email password cpath apath cb ab).exitCode = 1
    ∧ countLevel .ERROR
        (main_run fs transport email password cpath apath cb ab).log = 3 := by
  have h1 : (read_email_list fs cpath).1 = some (read_email_list_lines lines) := by
    unfold read_email_list
    rw [hc]
  have h2 : (read_email_list fs apath).1 = none := by
    unfold read_email_list
    rw [ha]
  have h2l : (read_email_list fs apath).2
      = format_exception_info e ++ write_log "ERROR"
          ("Error reading email list from " ++ apath ++ ": " ++ e) := by
    unfold read_email_list
    rw [ha]
  have hred := main_run_none fs transport email password cpath apath cb ab
    (Or.inr h2)
  refine ⟨by rw [hred], by rw [hred], ?_⟩
  have hlog : (main_run fs transport email password cpath apath cb ab).log
      = (read_email_list fs cpath).2 ++ (read_email_list fs apath).2 ++
        write_log "ERROR" "Failed to read email lists. Exiting." := by
    rw [hred]
  rw [hlog, read_email_list_some_log fs cpath _ h1, h2l]
  rfl

/-- Witness for the amended C6 at the end-to-end scenario. -/
theorem load_failure_aborts_with_three_errors_witness :
    (main_run fs_missing_accepted always_ok "s@x.com" "pw" "confirmed.txt"
        "accepted.txt" "CB" "AB").calls = []
    ∧ (main_run fs_missing_accepted always_ok "s@x.com" "pw" "confirmed.txt"
        "accepted.txt" "CB" "AB").exitCode = 1
    ∧ countLevel .ERROR (main_run fs_missing_accepted always_ok "s@x.com" "pw"
        "confirmed.txt" "accepted.txt" "CB" "AB").log = 3 :=
  load_failure_aborts_with_three_errors fs_missing_accepted always_ok
    "s@x.com" "pw" "confirmed.txt" "accepted.txt" "CB" "AB" ["a@x.com"]
    "No such file or directory" rfl rfl

end EmailHackers

namespace EmailHackers

/-- C7: when both lists load successfully the process exits with status 0
regardless of how many sends fail; the run writes no CRITICAL record, and
its WARNING records are exactly one per failed send attempt (so with one
address per list and an always-failing transport: exit 0, two WARNINGs, no
CRITICAL). -/
theorem run_completes_despite_send_failures
    (fs : String → Except String (List String)) (transport : Nat → SmtpOutcome)
    (email password cpath apath cb ab : String) (ce ae : List String)
    (hc : (read_email_list fs cpath).1 = some ce)
    (ha : (read_email_list fs apath).1 = some ae) :
    (main_run fs transport email password cpath apath cb ab).exitCode = 0
    ∧ countLevel .CRITICAL
        (main_run fs transport email password cpath apath cb ab).log = 0
    ∧ countLevel .WARNING
        (main_run fs transport email password cpath apath cb ab).log
      = ((List.range (ce.length + ae.length)).filter
          (fun j => !(transport j).isOk)).length := by
  refine ⟨main_run_some_exit fs transport email password cpath apath cb ab
    ce ae hc ha, ?_, ?_⟩
  · rw [main_run_some_log fs transport email password cpath apath cb ab ce ae hc ha,
      read_email_list_some_log fs cpath ce hc,
      read_email_list_some_log fs apath ae ha,
      countLevel_append, countLevel_append, countLevel_append, countLevel_append,
      dispatch_loop_count_critical, dispatch_loop_count_critical]
    rfl
  · rw [main_run_some_log fs transport email password cpath apath cb ab ce ae hc ha,
      read_email_list_some_log fs cpath ce hc,
      read_email_list_some_log fs apath ae ha,
      countLevel_append, countLevel_append, countLevel_append, countLevel_append,
      dispatch_loop_count_warning, dispatch_loop_count_warning]
    have hsplit : List.range (ce.length + ae.length)
        = List.range' 0 ce.length ++ List.range' ce.length ae.length := by
      rw [List.range_eq_range', Nat.add_comm, ← List.range'_append_1,
        Nat.zero_add]
    rw [hsplit, List.filter_append, List.length_append]
    show 0 + 0 + _ + _ + 0 = _
    omega

/-- Witness for C7 at the end-to-end scenario: one address per list,
transport always failing — exit 0, exactly two WARNING records, no
CRITICAL record. -/
theorem run_completes_despite_send_failures_witness :
    (main_run fs_two always_fail "s@x.com" "pw" "confirmed.txt" "accepted.txt"
        "CB" "AB").exitCode = 0
    ∧ countLevel .CRITICAL (main_run fs_two always_fail "s@x.com" "pw"
        "confirmed.txt" "accepted.txt" "CB" "AB").log = 0
    ∧ countLevel .WARNING (main_run fs_two always_fail "s@x.com" "pw"
        "confirmed.txt" "accepted.txt" "CB" "AB").log = 2 := by
  have h := run_completes_despite_send_failures fs_two always_fail "s@x.com"
    "pw" "confirmed.txt" "accepted.txt" "CB" "AB" ["a@x.com"] ["b@x.com"]
    (by decide) (by decide)
  exact ⟨h.1, h.2.1, h.2.2.trans (by decide)⟩

/-- C8: in every run that reaches the sending phase the states are
traversed in the fixed order INIT, LISTS_LOADED, SENDING_CONFIRMED,
SENDING_ACCEPTED, DONE, and the invocation sequence splits into the
confirmed-template attempts followed by the accepted-template attempts
(every confirmed send before any accepted send); FATAL is reached only when
list loading fails, directly from INIT, with no send performed. -/
theorem dispatcher_linear_state_order
    (fs : String → Except String (List String)) (transport : Nat → SmtpOutcome)
    (email password cpath apath cb ab : String) :
    (∀ ce ae, (read_email_list fs cpath).1 = some ce →
      (read_email_list fs apath).1 = some ae →
      (main_run fs transport email password cpath apath cb ab).states
          = [.INIT, .LISTS_LOADED, .SENDING_CONFIRMED, .SENDING_ACCEPTED, .DONE]
        ∧ ∃ cCalls aCalls,
            (main_run fs transport email password cpath apath cb ab).calls
                = cCalls ++ aCalls
            ∧ (∀ c ∈ cCalls, c.subject = confirmed_subject)
            ∧ (∀ c ∈ aCalls, c.subject = accepted_subject))
    ∧ (DispatchState.FATAL ∈
          (main_run fs transport email password cpath apath cb ab).states →
        (main_run fs transport email password cpath apath cb ab).states
            = [.INIT, .FATAL]
        ∧ (main_run fs transport email password cpath apath cb ab).calls = []) := by
  constructor
  · intro ce ae hc ha
    refine ⟨main_run_some_states fs transport email password cpath apath cb ab
      ce ae hc ha,
      (dispatch_loop transport email password confirmed_subject cb
        "confirmation" ce 0).1,
      (dispatch_loop transport email password accepted_subject ab
        "acceptance" ae ce.length).1,
      main_run_some_calls fs transport email password cpath apath cb ab ce ae
        hc ha, ?_, ?_⟩
    · rw [dispatch_loop_calls]
      intro c hcl
      simp only [List.mem_map] at hcl
      obtain ⟨r, _, rfl⟩ := hcl
      rfl
    · rw [dispatch_loop_calls]
      intro c hcl
      simp only [List.mem_map] at hcl
      obtain ⟨r, _, rfl⟩ := hcl
      rfl
  · intro hf
    cases hc : (read_email_list fs cpath).1 with
    | none =>
        rw [main_run_none fs transport email password cpath apath cb ab
          (Or.inl hc)]
        exact ⟨rfl, rfl⟩
    | some ce =>
        cases ha : (read_email_list fs apath).1 with
        | none =>
            rw [main_run_none fs transport email password cpath apath cb ab
              (Or.inr ha)]
            exact ⟨rfl, rfl⟩
        | some ae =>
            rw [main_run_some_states fs transport email password cpath apath
              cb ab ce ae hc ha] at hf
            exact absurd hf (by decide)

/-- Witness for C8: a run with both lists valid traverses the five linear
states. -/
theorem dispatcher_linear_state_order_witness :
    (main_run fs_two always_ok "s@x.com" "pw" "confirmed.txt" "accepted.txt"
        "CB" "AB").states
      = [.INIT, .LISTS_LOADED, .SENDING_CONFIRMED, .SENDING_ACCEPTED, .DONE] :=
  ((dispatcher_linear_state_order fs_two always_ok "s@x.com" "pw"
      "confirmed.txt" "accepted.txt" "CB" "AB").1 ["a@x.com"] ["b@x.com"]
      (by decide) (by decide)).1

/-- C9 counterexample: the DEBUG tag does not append a line — the sink is
configured at INFO level, so `logging.debug` discards the record. -/
theorem write_log_debug_appends_refuted :
    write_log "DEBUG" "diagnostic" = []
    ∧ ¬ write_log "DEBUG" "diagnostic" = [⟨.DEBUG, "diagnostic"⟩] := by
  decide

/-- C9 (amended): for every message, the INFO, WARNING, ERROR and CRITICAL
tags append exactly one record at that level, formatted (per the configured
format) with a timestamp and the level name; the DEBUG tag appends nothing,
because the sink is configured at INFO level; the LINE tag appends the
80-character rule line at INFO level. -/
theorem write_log_level_dispatch (message asctime : String) :
    write_log "INFO" message = [⟨.INFO, message⟩]
    ∧ write_log "WARNING" message = [⟨.WARNING, message⟩]
    ∧ write_log "ERROR" message = [⟨.ERROR, message⟩]
    ∧ write_log "CRITICAL" message = [⟨.CRITICAL, message⟩]
    ∧ write_log "DEBUG" message = []
    ∧ write_log "LINE" message = [⟨.INFO, rule_line⟩]
    ∧ (∀ r : LogRecord, format_line asctime r
        = asctime ++ " - " ++ levelname r.level ++ " - " ++ r.message) :=
  ⟨rfl, rfl, rfl, rfl, rfl, rfl, fun _ => rfl⟩

/-- C10: for every level tag that is none of INFO, DEBUG, WARNING, ERROR,
CRITICAL or LINE, `write_log` falls through every branch and returns
normally without appending any record: a silent no-op. -/
theorem write_log_unknown_tag_silent_noop (type message : String)
    (h : type ∉ (["INFO", "DEBUG", "WARNING", "ERROR", "CRITICAL", "LINE"] :
      List String)) :
    write_log type message = [] := by
  simp only [List.mem_cons, List.not_mem_nil, or_false, not_or] at h
  obtain ⟨h1, h2, h3, h4, h5, h6⟩ := h
  simp [write_log, h1, h2, h3, h4, h5, h6]

/-- Witness for C10: the tag VERBOSE writes nothing. -/
theorem write_log_unknown_tag_silent_noop_witness :
    write_log "VERBOSE" "message" = [] :=
  write_log_unknown_tag_silent_noop "VERBOSE" "message" (by decide)

end EmailHackers
